import Mathlib

/-! Overview.
Verification of the sdk-collector service (`src/app.py`, `src/models.py`)
against its natural-language specification.

The embedding models:
- JSON values as an inductive type `Json`; request bodies and the stored
  `raw_data` column are JSON objects (association lists with distinct keys,
  as produced by Python's JSON parser).
- the database as an in-memory list of `Client` and `EventRow` records;
  SQL `ORDER BY` is modelled with a correct stable sort, `LIMIT` with
  `List.take`, `GROUP BY ... COUNT` with a counting fold.
- Python dictionary access: `d.get(k, default)` and `d[k]` return `none`
  (an uncaught `AttributeError`/`TypeError`/`KeyError`) when the receiver is
  not a dict; dictionary insertion fails on unhashable keys.
- `datetime.fromisoformat` restricted to the grammar
  `YYYY-MM-DDTHH:MM:SS[+HH:MM|-HH:MM]` (the shapes reachable from the
  claims), with Python's field-range validation.
- Prometheus counters as a record of natural numbers; the database commit
  may fail, which is abstracted by a boolean `persistOk` parameter.
-/

/-- A JSON value.  `obj` models a Python dict produced by JSON parsing
(keys distinct, first match wins on lookup); numbers are modelled as
integers. -/
inductive Json where
  | null
  | bool (b : Bool)
  | num (n : Int)
  | str (s : String)
  | arr (xs : List Json)
  | obj (fields : List (String × Json))

/-- Lookup of a key in a JSON object's field list (Python dict lookup). -/
def jlookup : List (String × Json) → String → Option Json
  | [], _ => none
  | (k, v) :: rest, key => if k = key then some v else jlookup rest key

/-- Python truthiness of a JSON value (`if not x`). -/
def jsonTruthy : Json → Bool
  | .null => false
  | .bool b => b
  | .num n => !(n == 0)
  | .str s => !(s == "")
  | .arr xs => !xs.isEmpty
  | .obj fs => !fs.isEmpty

/-- Python `x.get(k, d)`: `none` models the `AttributeError` raised when `x`
is not a dict. -/
def pyGetD : Json → String → Json → Option Json
  | .obj fs, k, d => some ((jlookup fs k).getD d)
  | _, _, _ => none

/-- Python `x.get(k)` (default `None`). -/
def pyGet (x : Json) (k : String) : Option Json :=
  pyGetD x k Json.null

/-- Python `x[k]` subscription: `none` models the `KeyError`/`TypeError`
raised when the key is absent or `x` is not a dict. -/
def pyIndex : Json → String → Option Json
  | .obj fs, k => jlookup fs k
  | _, _ => none

/-- Python `==` on the hashable JSON scalars that can serve as dict keys
(note `True == 1` and `False == 0` in Python).  Containers are never
compared here because they are rejected as dict keys before comparison. -/
def pyEq : Json → Json → Bool
  | .null, .null => true
  | .bool a, .bool b => a == b
  | .bool a, .num b => (if a then (1 : Int) else 0) == b
  | .num a, .bool b => a == (if b then (1 : Int) else 0)
  | .num a, .num b => a == b
  | .str a, .str b => a == b
  | _, _ => false

/-- Whether a JSON value is hashable in Python (usable as a dict key). -/
def keyHashable : Json → Bool
  | .arr _ => false
  | .obj _ => false
  | _ => true

/-- One step of building a Python counting dict: `m[k] = m.get(k, 0) + 1`.
Keys in the association list are distinct, so incrementing the first match
is dict update; an absent key is appended (Python dicts preserve insertion
order). -/
def bumpCount (eq : Json → Json → Bool) : List (Json × Nat) → Json → List (Json × Nat)
  | [], k => [(k, 1)]
  | (k', v) :: rest, k => if eq k' k then (k', v + 1) :: rest else (k', v) :: bumpCount eq rest k

/-- `m[k] = m.get(k, 0) + 1` with Python dict semantics: unhashable keys
raise `TypeError` (modelled as `none`). -/
def dictBump (m : List (Json × Nat)) (k : Json) : Option (List (Json × Nat)) :=
  if keyHashable k then some (bumpCount pyEq m k) else none

/-! Section: The data model (`src/models.py`). -/

/-- A row of the `clients` table. -/
structure Client where
  id : Nat
  api_key : String
  name : Json
  created_at : Int
  is_active : Bool

/-- A row of the `events` table.  `sent_at`, `received_at` and `created_at`
carry the timestamp as an abstract instant (an integer, ordered as the
`DateTime` column is). -/
structure EventRow where
  id : Nat
  client_id : Nat
  visitor_id : Json
  session_id : Json
  page_url : Json
  page_title : Option Json
  referrer : Option Json
  event_type : Json
  sdk_version : Option Json
  sent_at : Int
  received_at : Int
  raw_data : Json

/-- The Prometheus error counter `errors_total`, one field per `type` label,
plus the `events_total` family collapsed to its total. -/
structure Counters where
  auth_missing : Nat
  auth_invalid : Nat
  validation : Nat
  processing : Nat
  events_total : Nat

/-! Section: Timestamp parsing (`datetime.fromisoformat` and the `Z` rewrite). -/

/-- Numeric value of a digit character. -/
def digitVal (c : Char) : Nat := c.toNat - 48

/-- Days in a month, with the Gregorian leap rule (as validated by
`datetime`). -/
def daysInMonth (y m : Nat) : Nat :=
  if m = 2 then (if (y % 4 = 0 ∧ y % 100 ≠ 0) ∨ y % 400 = 0 then 29 else 28)
  else if m = 4 ∨ m = 6 ∨ m = 9 ∨ m = 11 then 30
  else 31

/-- A naive datetime (no timezone). -/
structure NaiveDT where
  year : Nat
  month : Nat
  day : Nat
  hour : Nat
  minute : Nat
  second : Nat

/-- A possibly timezone-aware datetime; `offsetMinutes = none` is a naive
datetime, `some k` a fixed UTC offset of `k` minutes. -/
structure AwareDT where
  naive : NaiveDT
  offsetMinutes : Option Int

/-- Parse the 19-character naive part `YYYY-MM-DDTHH:MM:SS`, with the field
range checks `datetime` performs (month 1–12, day 1–days-in-month,
hour ≤ 23, minute ≤ 59, second ≤ 59, year 1–9999). -/
def parseNaive19 (cs : List Char) : Option NaiveDT :=
  let c := fun i => cs.getD i ' '
  let y := digitVal (c 0) * 1000 + digitVal (c 1) * 100 + digitVal (c 2) * 10 + digitVal (c 3)
  let mo := digitVal (c 5) * 10 + digitVal (c 6)
  let d := digitVal (c 8) * 10 + digitVal (c 9)
  let h := digitVal (c 11) * 10 + digitVal (c 12)
  let mi := digitVal (c 14) * 10 + digitVal (c 15)
  let s := digitVal (c 17) * 10 + digitVal (c 18)
  if cs.length = 19 ∧
      (c 0).isDigit ∧ (c 1).isDigit ∧ (c 2).isDigit ∧ (c 3).isDigit ∧ c 4 = '-' ∧
      (c 5).isDigit ∧ (c 6).isDigit ∧ c 7 = '-' ∧ (c 8).isDigit ∧ (c 9).isDigit ∧
      c 10 = 'T' ∧ (c 11).isDigit ∧ (c 12).isDigit ∧ c 13 = ':' ∧
      (c 14).isDigit ∧ (c 15).isDigit ∧ c 16 = ':' ∧ (c 17).isDigit ∧ (c 18).isDigit ∧
      1 ≤ y ∧ y ≤ 9999 ∧ 1 ≤ mo ∧ mo ≤ 12 ∧ 1 ≤ d ∧ d ≤ daysInMonth y mo ∧
      h ≤ 23 ∧ mi ≤ 59 ∧ s ≤ 59 then
    some ⟨y, mo, d, h, mi, s⟩
  else
    none

/-- Parse the characters after position 19 as an optional UTC offset
`±HH:MM`; `datetime.timezone` requires the offset to be strictly less than
24 hours in magnitude.  `some none` is a naive result (no offset present). -/
def parseOffsetTail (cs : List Char) : Option (Option Int) :=
  match cs with
  | [] => some none
  | [sgn, h1, h2, colon, m1, m2] =>
    if (sgn = '+' ∨ sgn = '-') ∧ h1.isDigit ∧ h2.isDigit ∧ colon = ':' ∧
        m1.isDigit ∧ m2.isDigit ∧
        (digitVal h1 * 10 + digitVal h2) * 60 + (digitVal m1 * 10 + digitVal m2) < 1440 then
      some (some ((if sgn = '-' then (-1 : Int) else 1) *
        (((digitVal h1 * 10 + digitVal h2) * 60 + (digitVal m1 * 10 + digitVal m2) : Nat) : Int)))
    else
      none
  | _ => none

/-- Model of `datetime.fromisoformat`, restricted to the grammar
`YYYY-MM-DDTHH:MM:SS[±HH:MM]` (the shapes the ingestion path and the
claims exercise); everything else is a `ValueError` (`none`). -/
def fromisoformat (s : String) : Option AwareDT :=
  match parseNaive19 (s.data.take 19), parseOffsetTail (s.data.drop 19) with
  | some n, some off => some ⟨n, off⟩
  | _, _ => none

/-- Python `s.replace(pat, rep)` for a single-character pattern: every
occurrence is replaced. -/
def pyReplace (s : String) (pat : Char) (rep : String) : String :=
  String.mk (s.data.flatMap (fun ch => if ch = pat then rep.data else [ch]))

/-- Canonical instant of an aware datetime, in minutes (days-from-civil ×
1440 + time of day − offset); naive datetimes take offset 0 for ordering
purposes.  Used only to give stored timestamps a linear order. -/
def civilDays (y m d : Nat) : Int :=
  let y' : Int := if m ≤ 2 then (y : Int) - 1 else (y : Int)
  let era : Int := y' / 400
  let yoe : Int := y' - era * 400
  let mp : Int := ((m : Int) + 9) % 12
  let doy : Int := (153 * mp + 2) / 5 + (d : Int) - 1
  let doe : Int := yoe * 365 + yoe / 4 - yoe / 100 + doy
  era * 146097 + doe - 719468

/-- The instant denoted by an aware datetime, in seconds since the epoch. -/
def instantSeconds (dt : AwareDT) : Int :=
  civilDays dt.naive.year dt.naive.month dt.naive.day * 86400 +
    (dt.naive.hour : Int) * 3600 + (dt.naive.minute : Int) * 60 + (dt.naive.second : Int) -
    (dt.offsetMinutes.getD 0) * 60

/-! Section: Auth gate (`authenticate`, `app.py` lines 56–78). -/

/-- The allow-list of public paths checked by the before-request hook. -/
def publicPaths : List String := ["/health", "/api/register", "/", "/metrics"]

/-- Outcome of the before-request hook: pass through (public path), a 401
response, or the resolved client attached to the request context. -/
inductive AuthOutcome where
  | passThrough
  | denied (status : Nat) (err : String)
  | ok (c : Client)

/-- Predicate used by `Client.query.filter_by(api_key=..., is_active=True)`:
exact key match against the (string) column and `is_active = true`.  A
non-string candidate never matches the string column. -/
def keyMatches (cand : Json) (c : Client) : Bool :=
  (match cand with
   | .str s => s == c.api_key
   | _ => false) && c.is_active

/-- Candidate-key extraction (`app.py` lines 61–65):
`data = request.get_json(silent=True) or {}`,
`api_key = data.get('api_key')`,
`if not api_key: api_key = request.headers.get('X-API-Key')`. -/
def candidateKey (body : Option (List (String × Json))) (header : Option String) : Json :=
  let data := body.getD []
  let cand0 : Json := (jlookup data ("api_key")).getD .null
  if jsonTruthy cand0 then cand0
  else match header with
       | some h => .str h
       | none => .null

/-- The before-request hook.  `body` is the parsed JSON body when the
request carries a JSON object (`request.get_json(silent=True)`), `header`
the `X-API-Key` header.  `clients` is the clients table. -/
def authenticate (path : String) (body : Option (List (String × Json)))
    (header : Option String) (clients : List Client) (ctrs : Counters) :
    AuthOutcome × Counters :=
  if path ∈ publicPaths then (.passThrough, ctrs)
  else
    let cand := candidateKey body header
    if !jsonTruthy cand then
      (.denied 401 ("Missing api_key"), { ctrs with auth_missing := ctrs.auth_missing + 1 })
    else
      match clients.find? (keyMatches cand) with
      | none => (.denied 401 ("Invalid API key"), { ctrs with auth_invalid := ctrs.auth_invalid + 1 })
      | some c => (.ok c, ctrs)

/-! Section: Client registration (`register_client`, `app.py` lines 36–54). -/

/-- `generate_api_key`: `"sk_" + secrets.token_urlsafe(32)`; the random
token is a parameter of the model. -/
def generate_api_key (tok : String) : String := "sk_" ++ tok

/-- Response of the registration endpoint. -/
structure RegisterOutcome where
  status : Nat
  err : Option String
  api_key : Option String

/-- The `/api/register` handler.  `body` is the parsed JSON body (`none`
for an absent/null body, which is falsy), `tok` the random token drawn by
`secrets.token_urlsafe`, `nextId` the id the store assigns to the new row,
`now` the server clock (column default for `created_at`). -/
def register_client (body : Option (List (String × Json))) (tok : String)
    (clients : List Client) (nextId : Nat) (now : Int) :
    RegisterOutcome × List Client :=
  match body with
  | none => (⟨400, some ("Client name required"), none⟩, clients)
  | some data =>
    -- if not data or 'name' not in data
    if data.isEmpty || (jlookup data ("name")).isNone then
      (⟨400, some ("Client name required"), none⟩, clients)
    else
      let key := generate_api_key tok
      let c : Client :=
        { id := nextId, api_key := key, name := (jlookup data ("name")).getD .null,
          created_at := now, is_active := true }
      (⟨201, none, some key⟩, clients ++ [c])

/-! Section: Event ingestion (`track_event`, `app.py` lines 80–128). -/

/-- Response of the ingestion endpoint. -/
structure TrackOutcome where
  status : Nat
  err : Option String
  event_id : Option Nat

/-- The four required top-level payload fields, in the order checked. -/
def requiredFields : List String := ["event_type", "sent_at", "identifiers", "page_info"]

/-- First required field missing from the payload, if any. -/
def firstMissing (data : List (String × Json)) : Option String :=
  requiredFields.find? (fun f => (jlookup data f).isNone)

/-- `datetime.fromisoformat(data['sent_at'].replace('Z', '+00:00'))`:
`.replace` on a non-string raises (`none`), then the parse itself may
raise. -/
def parseSentAt (v : Json) : Option AwareDT :=
  match v with
  | .str s => fromisoformat (pyReplace s 'Z' ("+00:00"))
  | _ => none

/-- The `Event(...)` construction inside the `try` block: nested field
extraction and timestamp parsing; any raised exception is `none`. -/
def buildEvent (data : List (String × Json)) (c : Client) (nextId : Nat) (now : Int) :
    Option EventRow := do
  let ids ← jlookup data ("identifiers")
  let vid ← pyIndex ids ("visitor_id")
  let sid ← pyIndex ids ("session_id")
  let pinfo ← jlookup data ("page_info")
  let url ← pyIndex pinfo ("url")
  let et ← jlookup data ("event_type")
  let dt ← parseSentAt ((jlookup data ("sent_at")).getD .null)
  pure
    { id := nextId, client_id := c.id, visitor_id := vid, session_id := sid,
      page_url := url, page_title := none, referrer := none, event_type := et,
      sdk_version := jlookup data ("sdk_version"), sent_at := instantSeconds dt,
      received_at := now, raw_data := .obj data }

/-- The `/api/events` handler body, after authentication.  `persistOk`
abstracts whether the `db.session.commit()` succeeds; any exception inside
the `try` (extraction, parse, persistence) rolls the transaction back and
yields the generic 500. -/
def track_event (store : List EventRow) (c : Client) (data : List (String × Json))
    (persistOk : Bool) (nextId : Nat) (now : Int) (ctrs : Counters) :
    TrackOutcome × List EventRow × Counters :=
  match firstMissing data with
  | some f =>
    (⟨400, some ("Missing " ++ f), none⟩, store,
     { ctrs with validation := ctrs.validation + 1 })
  | none =>
    match buildEvent data c nextId now with
    | some row =>
      if persistOk then
        (⟨201, none, some nextId⟩, store ++ [row],
         { ctrs with events_total := ctrs.events_total + 1 })
      else
        (⟨500, some ("Failed to process event"), none⟩, store,
         { ctrs with processing := ctrs.processing + 1 })
    | none =>
      (⟨500, some ("Failed to process event"), none⟩, store,
       { ctrs with processing := ctrs.processing + 1 })

/-! Section: Analytics (`app.py` lines 130–202). -/

/-- The events of one tenant (`filter_by(client_id=...)`). -/
def tenantEvents (store : List EventRow) (cid : Nat) : List EventRow :=
  store.filter (fun e => decide (e.client_id = cid))

/-- `ORDER BY sent_at ASC`. -/
def sentLe (a b : EventRow) : Prop := a.sent_at ≤ b.sent_at

/-- `ORDER BY sent_at DESC`. -/
def sentGe (a b : EventRow) : Prop := b.sent_at ≤ a.sent_at

instance : DecidableRel sentLe := fun a b => inferInstanceAs (Decidable (a.sent_at ≤ b.sent_at))

instance : DecidableRel sentGe := fun a b => inferInstanceAs (Decidable (b.sent_at ≤ a.sent_at))

instance : IsTotal EventRow sentLe := ⟨fun a b => Int.le_total a.sent_at b.sent_at⟩

instance : IsTrans EventRow sentLe := ⟨fun _ _ _ h1 h2 => le_trans h1 h2⟩

instance : IsTotal EventRow sentGe := ⟨fun a b => (Int.le_total b.sent_at a.sent_at).imp id id⟩

instance : IsTrans EventRow sentGe := ⟨fun _ _ _ h1 h2 => le_trans h2 h1⟩

/-- The `/api/analytics/summary` response. -/
structure Summary where
  client : Json
  total_events : Nat
  by_type : List (Json × Nat)
  unique_visitors : Nat
  first_event : Option Int

/-- `SELECT event_type, COUNT(id) ... GROUP BY event_type`, as the
count-per-distinct-value table (SQL value equality on the column). -/
def groupByType (evs : List EventRow) : List (Json × Nat) :=
  evs.foldl (fun m e => bumpCount pyEq m e.event_type) []

/-- The `/api/analytics/summary` handler. -/
def analytics_summary (store : List EventRow) (c : Client) : Summary :=
  let evs := tenantEvents store c.id
  let total := evs.length
  { client := c.name
    total_events := total
    by_type := groupByType evs
    unique_visitors := (evs.map (·.visitor_id)).foldl
      (fun acc v => if acc.any (fun w => pyEq w v) then acc else acc ++ [v]) [] |>.length
    first_event :=
      if total > 0 then ((evs.insertionSort sentLe).head?).map (·.sent_at) else none }

/-- One element of the `/api/analytics/recent` response. -/
structure EventView where
  id : Nat
  type : Json
  visitor : Json
  page : Json
  time : Int
  detail_error : Json
  detail_click : Json
  detail_load_time : Json

/-- The `details` sub-object of a recent-event view; `none` models an
exception raised by attribute access on a non-dict `raw_data` entry. -/
def eventView (e : EventRow) : Option EventView := do
  let derr ←
    if pyEq e.event_type (.str ("error")) then
      (pyGetD e.raw_data ("error_info") (.obj [])).bind (fun ei => pyGet ei ("message"))
    else some .null
  let dclick ←
    if pyEq e.event_type (.str ("click")) then
      (pyGetD e.raw_data ("click_info") (.obj [])).bind (fun ci => pyGet ci ("element"))
    else some .null
  let dload ←
    if pyEq e.event_type (.str ("page_view")) then
      (pyGetD e.raw_data ("performance") (.obj [])).bind (fun p => pyGet p ("load_time"))
    else some .null
  pure
    { id := e.id, type := e.event_type, visitor := e.visitor_id, page := e.page_url,
      time := e.sent_at, detail_error := derr, detail_click := dclick,
      detail_load_time := dload }

/-- The `/api/analytics/recent` handler: the tenant's events ordered by
`sent_at` descending, limited to 50, rendered to views (`none` when
rendering raises). -/
def recent_events (store : List EventRow) (cid : Nat) : Option (List EventView) :=
  (((tenantEvents store cid).insertionSort sentGe).take 50).mapM eventView

/-- One element of the `recent_errors` listing. -/
structure ErrorView where
  message : Json
  file : Json
  line : Json
  page : Json
  time : Int

/-- Rendering of one error event in the listing (`raw_data.get('error_info',
{}).get(...)` chains; `none` models a raised exception). -/
def errorView (e : EventRow) : Option ErrorView := do
  let ei ← pyGetD e.raw_data ("error_info") (.obj [])
  let msg ← pyGet ei ("message")
  let fl ← pyGet ei ("file")
  let ln ← pyGet ei ("line")
  pure { message := msg, file := fl, line := ln, page := e.page_url, time := e.sent_at }

/-- The `/api/analytics/errors` response. -/
structure ErrorReport where
  total_errors : Nat
  recent_errors : List ErrorView
  error_frequency : List (Json × Nat)

/-- The key under which one error event is counted:
`e.raw_data.get('error_info', {}).get('message', 'Unknown')`. -/
def errorFreqKey (e : EventRow) : Option Json :=
  (pyGetD e.raw_data ("error_info") (.obj [])).bind
    (fun ei => pyGetD ei ("message") (.str ("Unknown")))

/-- The frequency-table loop of `error_analytics`. -/
def errorFreqFold (errs : List EventRow) : Option (List (Json × Nat)) :=
  errs.foldlM (fun m e => (errorFreqKey e).bind (dictBump m)) []

/-- `filter_by(client_id=..., event_type='error')`. -/
def tenantErrorEvents (store : List EventRow) (cid : Nat) : List EventRow :=
  store.filter (fun e => decide (e.client_id = cid) && pyEq e.event_type (.str ("error")))

/-- The `/api/analytics/errors` handler: the 100 most recent error events,
a frequency table over all of them, and a listing of the first 10. -/
def error_analytics (store : List EventRow) (cid : Nat) : Option ErrorReport := do
  let errors := ((tenantErrorEvents store cid).insertionSort sentGe).take 100
  let freq ← errorFreqFold errors
  let views ← (errors.take 10).mapM errorView
  pure { total_errors := errors.length, recent_errors := views, error_frequency := freq }

/-! Section: general helper lemmas. -/

/-- One bump adds exactly one to the total count, whatever the key
equality does. -/
theorem sum_bumpCount (eq : Json → Json → Bool) (m : List (Json × Nat)) (k : Json) :
    ((bumpCount eq m k).map (·.2)).sum = ((m.map (·.2)).sum) + 1 := by
  induction m with
  | nil => simp [bumpCount]
  | cons p rest ih =>
    obtain ⟨k', v⟩ := p
    by_cases h : eq k' k = true
    · simp [bumpCount, h]
      omega
    · simp [bumpCount, h, ih]
      omega

/-- Folding bumps over a list adds the list's length to the total count. -/
theorem sum_foldl_bumpCount (eq : Json → Json → Bool) (key : EventRow → Json)
    (evs : List EventRow) :
    ∀ m : List (Json × Nat),
      ((evs.foldl (fun m e => bumpCount eq m (key e)) m).map (·.2)).sum
        = (m.map (·.2)).sum + evs.length := by
  induction evs with
  | nil => intro m; simp
  | cons e rest ih =>
    intro m
    simp only [List.foldl_cons, ih (bumpCount eq m (key e)), sum_bumpCount, List.length_cons]
    omega

/-- A successful `mapM` in the `Option` monad relates inputs and outputs
pointwise. -/
theorem mapM_option_forall₂ {α β : Type} (f : α → Option β) :
    ∀ (l : List α) (r : List β), l.mapM f = some r →
      List.Forall₂ (fun a b => f a = some b) l r := by
  intro l
  induction l with
  | nil =>
    intro r h
    simp only [List.mapM_nil, pure, Option.some.injEq] at h
    subst h
    exact List.Forall₂.nil
  | cons a rest ih =>
    intro r h
    simp only [List.mapM_cons, bind, Option.bind_eq_some, pure, Option.some.injEq] at h
    obtain ⟨b, hb, r', hr', rfl⟩ := h
    exact List.Forall₂.cons hb (ih r' hr')

/-- A successful `foldlM` of dict bumps adds the list's length to the
total count. -/
theorem sum_errorFreqFold (errs : List EventRow) :
    ∀ (m r : List (Json × Nat)),
      errs.foldlM (fun m e => (errorFreqKey e).bind (dictBump m)) m = some r →
      (r.map (·.2)).sum = (m.map (·.2)).sum + errs.length := by
  induction errs with
  | nil =>
    intro m r h
    simp only [List.foldlM_nil, pure, Option.some.injEq] at h
    subst h
    simp
  | cons e rest ih =>
    intro m r h
    simp only [List.foldlM_cons, bind, Option.bind_eq_some] at h
    obtain ⟨m', hm', hrest⟩ := h
    have hstep : (m'.map (·.2)).sum = (m.map (·.2)).sum + 1 := by
      obtain ⟨k, _, hb⟩ := hm'
      unfold dictBump at hb
      by_cases hh : keyHashable k = true
      · simp only [hh, if_true, Option.some.injEq] at hb
        subst hb
        exact sum_bumpCount pyEq m k
      · simp [hh] at hb
    have := ih m' r hrest
    simp only [List.length_cons]
    omega

/-! Section: sample data used by the witnesses. -/

/-- All-zero metric counters. -/
def ctrs0 : Counters := ⟨0, 0, 0, 0, 0⟩

/-- A sample registered, active client. -/
def cSample : Client := ⟨1, "sk_k1", .str ("Acme"), 0, true⟩

/-- A sample click event of client 1. -/
def evClick : EventRow :=
  ⟨10, 1, .str ("v1"), .str ("s1"), .str ("https://x.test"), none, none,
   .str ("click"), none, 100, 0, .obj []⟩

/-- A sample error event of client 1 whose `raw_data` carries an
`error_info.message`. -/
def evErr : EventRow :=
  ⟨11, 1, .str ("v2"), .str ("s2"), .str ("https://x.test/2"), none, none,
   .str ("error"), none, 200, 0,
   .obj [(("error_info"), .obj [(("message"), .str ("boom"))])]⟩

/-- A sample event belonging to a different tenant (client 2). -/
def evOther : EventRow :=
  ⟨12, 2, .str ("v3"), .str ("s3"), .str ("https://y.test"), none, none,
   .str ("click"), none, 300, 0, .obj []⟩

/-! Section: claim C5, the analytics summary. -/

/-- Claim C5: for every tenant and store state, `total_events` equals the
sum of the `by_type` counts, and `first_event` is the `sent_at` of the
earliest event by `sent_at` (`none` when the tenant has no events). -/
theorem analytics_summary_spec (store : List EventRow) (c : Client) :
    (analytics_summary store c).total_events
      = ((analytics_summary store c).by_type.map (·.2)).sum ∧
    (tenantEvents store c.id = [] →
      (analytics_summary store c).first_event = none) ∧
    (tenantEvents store c.id ≠ [] →
      ∃ e ∈ tenantEvents store c.id,
        (analytics_summary store c).first_event = some e.sent_at ∧
        ∀ e' ∈ tenantEvents store c.id, e.sent_at ≤ e'.sent_at) := by
  refine ⟨?_, ?_, ?_⟩
  · have h := sum_foldl_bumpCount pyEq (fun e => e.event_type) (tenantEvents store c.id) []
    simp only [List.map_nil, List.sum_nil, Nat.zero_add] at h
    simp [analytics_summary, groupByType, h]
  · intro h
    simp [analytics_summary, h]
  · intro h
    have hlen : 0 < (tenantEvents store c.id).length := List.length_pos.mpr h
    have hsorted := List.sorted_insertionSort sentLe (tenantEvents store c.id)
    have hperm := List.perm_insertionSort sentLe (tenantEvents store c.id)
    cases hs : (tenantEvents store c.id).insertionSort sentLe with
    | nil =>
      rw [hs] at hperm
      have := hperm.length_eq
      simp at this
      omega
    | cons e0 t =>
      refine ⟨e0, ?_, ?_, ?_⟩
      · have h0 : e0 ∈ (tenantEvents store c.id).insertionSort sentLe := by
          rw [hs]; exact List.mem_cons_self _ _
        exact hperm.mem_iff.mp h0
      · simp [analytics_summary, hs, hlen]
      · intro e' he'
        have h' : e' ∈ e0 :: t := by rw [← hs]; exact hperm.mem_iff.mpr he'
        rcases List.mem_cons.mp h' with rfl | hmem
        · exact le_refl _
        · rw [hs] at hsorted
          exact (List.sorted_cons.mp hsorted).1 e' hmem

/-- Witness for C5 at a concrete one-event store. -/
theorem analytics_summary_spec_witness :
    tenantEvents [evClick] cSample.id ≠ [] ∧
    (∃ e ∈ tenantEvents [evClick] cSample.id,
      (analytics_summary [evClick] cSample).first_event = some e.sent_at ∧
      ∀ e' ∈ tenantEvents [evClick] cSample.id, e.sent_at ≤ e'.sent_at) := by
  have h : tenantEvents [evClick] cSample.id ≠ [] := by
    simp [tenantEvents, evClick, cSample]
  exact ⟨h, (analytics_summary_spec [evClick] cSample).2.2 h⟩

/-! Section: claim C9, error-analytics totals. -/

/-- Claim C9: for every tenant and store state, the error-analytics
response has `total_errors` equal to the sum of the `error_frequency`
values, and `total_errors` is at most 100. -/
theorem error_analytics_totals (store : List EventRow) (cid : Nat) (r : ErrorReport)
    (h : error_analytics store cid = some r) :
    r.total_errors = (r.error_frequency.map (·.2)).sum ∧ r.total_errors ≤ 100 := by
  unfold error_analytics at h
  simp only [bind, Option.bind_eq_some, pure, Option.some.injEq] at h
  obtain ⟨freq, hfreq, views, hviews, hr⟩ := h
  subst hr
  constructor
  · have hsum := sum_errorFreqFold
      (((tenantErrorEvents store cid).insertionSort sentGe).take 100) [] freq hfreq
    simpa using hsum.symm
  · exact List.length_take_le 100 ((tenantErrorEvents store cid).insertionSort sentGe)

/-- Witness for C9 at a concrete store holding one error event. -/
theorem error_analytics_totals_witness :
    (error_analytics [evErr] 1).isSome ∧
    ∀ r, error_analytics [evErr] 1 = some r →
      r.total_errors = (r.error_frequency.map (·.2)).sum ∧ r.total_errors ≤ 100 := by
  constructor
  · rfl
  · intro r hr
    exact error_analytics_totals [evErr] 1 r hr

/-! Section: ingestion helper lemma. -/

/-- A successfully constructed `Event` implies every nested extraction and
the timestamp parse succeeded, and the row's `page_title` and `referrer`
columns were left at their `NULL` default. -/
theorem buildEvent_some (data : List (String × Json)) (c : Client) (nextId : Nat)
    (now : Int) (row : EventRow) (h : buildEvent data c nextId now = some row) :
    ((jlookup data ("identifiers")).bind (fun ids => pyIndex ids ("visitor_id"))).isSome ∧
    ((jlookup data ("identifiers")).bind (fun ids => pyIndex ids ("session_id"))).isSome ∧
    ((jlookup data ("page_info")).bind (fun p => pyIndex p ("url"))).isSome ∧
    (parseSentAt ((jlookup data ("sent_at")).getD .null)).isSome ∧
    row.page_title = none ∧ row.referrer = none := by
  unfold buildEvent at h
  simp only [bind, Option.bind_eq_some, pure, Option.some.injEq] at h
  obtain ⟨ids, h1, vid, h2, sid, h3, pinfo, h4, url, h5, et, h6, dt, h7, hrow⟩ := h
  subst hrow
  exact ⟨by simp [h1, h2], by simp [h1, h3], by simp [h4, h5], by simp [h7], rfl, rfl⟩

/-! Section: claim C3, top-level payload validation. -/

/-- Claim C3: an authenticated event submission missing one of the four
required top-level fields gets a 400 naming a missing field, and the event
store is unchanged. -/
theorem track_event_validation (store : List EventRow) (c : Client)
    (data : List (String × Json)) (persistOk : Bool) (nextId : Nat) (now : Int)
    (ctrs : Counters) (h : ∃ f ∈ requiredFields, jlookup data f = none) :
    ∃ f ∈ requiredFields, jlookup data f = none ∧
      (track_event store c data persistOk nextId now ctrs).1.status = 400 ∧
      (track_event store c data persistOk nextId now ctrs).1.err = some ("Missing " ++ f) ∧
      (track_event store c data persistOk nextId now ctrs).2.1 = store := by
  have hsome : (firstMissing data).isSome := by
    rw [firstMissing, List.find?_isSome]
    obtain ⟨f, hf, hn⟩ := h
    exact ⟨f, hf, by simp [hn]⟩
  cases hm : firstMissing data with
  | none => rw [hm] at hsome; simp at hsome
  | some f0 =>
    have hm' := hm
    rw [firstMissing] at hm'
    refine ⟨f0, List.mem_of_find?_eq_some hm', ?_, ?_, ?_, ?_⟩
    · have := List.find?_some hm'
      simpa using this
    · simp [track_event, hm]
    · simp [track_event, hm]
    · simp [track_event, hm]

/-- A payload with `sent_at` (and more) missing. -/
def dataNoSent : List (String × Json) := [(("event_type"), .str ("click"))]

/-- Witness for C3: a payload missing `sent_at` gets a 400 and leaves the
store unchanged. -/
theorem track_event_validation_witness :
    ∃ f ∈ requiredFields, jlookup dataNoSent f = none ∧
      (track_event [] cSample dataNoSent true 5 0 ctrs0).1.status = 400 ∧
      (track_event [] cSample dataNoSent true 5 0 ctrs0).1.err = some ("Missing " ++ f) ∧
      (track_event [] cSample dataNoSent true 5 0 ctrs0).2.1 = [] :=
  track_event_validation [] cSample dataNoSent true 5 0 ctrs0
    ⟨("sent_at"), by simp [requiredFields], rfl⟩

/-! Section: claim C4, processing failures. -/

/-- Claim C4: a submission that passes top-level validation but fails in
processing (missing nested sub-field, unparseable `sent_at`, or a
persistence failure) gets the generic 500, the store is unchanged (the
write is rolled back), and the `processing` error counter is incremented. -/
theorem track_event_processing (store : List EventRow) (c : Client)
    (data : List (String × Json)) (persistOk : Bool) (nextId : Nat) (now : Int)
    (ctrs : Counters)
    (hpres : ∀ f ∈ requiredFields, (jlookup data f).isSome)
    (hfail :
      ((jlookup data ("identifiers")).bind (fun ids => pyIndex ids ("visitor_id"))).isNone ∨
      ((jlookup data ("identifiers")).bind (fun ids => pyIndex ids ("session_id"))).isNone ∨
      ((jlookup data ("page_info")).bind (fun p => pyIndex p ("url"))).isNone ∨
      (parseSentAt ((jlookup data ("sent_at")).getD .null)).isNone ∨
      persistOk = false) :
    (track_event store c data persistOk nextId now ctrs).1.status = 500 ∧
    (track_event store c data persistOk nextId now ctrs).1.err
      = some ("Failed to process event") ∧
    (track_event store c data persistOk nextId now ctrs).2.1 = store ∧
    (track_event store c data persistOk nextId now ctrs).2.2.processing
      = ctrs.processing + 1 := by
  have hfm : firstMissing data = none := by
    rw [firstMissing, List.find?_eq_none]
    intro f hf hn
    have hx := hpres f hf
    rw [Option.isNone_iff_eq_none.mp hn] at hx
    simp at hx
  have hout : buildEvent data c nextId now = none ∨ persistOk = false := by
    rcases hfail with h | h | h | h | h
    · left
      cases hb : buildEvent data c nextId now with
      | none => rfl
      | some row =>
        have hs := (buildEvent_some data c nextId now row hb).1
        rw [Option.isNone_iff_eq_none.mp h] at hs
        simp at hs
    · left
      cases hb : buildEvent data c nextId now with
      | none => rfl
      | some row =>
        have hs := (buildEvent_some data c nextId now row hb).2.1
        rw [Option.isNone_iff_eq_none.mp h] at hs
        simp at hs
    · left
      cases hb : buildEvent data c nextId now with
      | none => rfl
      | some row =>
        have hs := (buildEvent_some data c nextId now row hb).2.2.1
        rw [Option.isNone_iff_eq_none.mp h] at hs
        simp at hs
    · left
      cases hb : buildEvent data c nextId now with
      | none => rfl
      | some row =>
        have hs := (buildEvent_some data c nextId now row hb).2.2.2.1
        rw [Option.isNone_iff_eq_none.mp h] at hs
        simp at hs
    · right; exact h
  rcases hout with hb | hp
  · simp [track_event, hfm, hb]
  · subst hp
    cases hb : buildEvent data c nextId now with
    | none => simp [track_event, hfm, hb]
    | some row => simp [track_event, hfm, hb]

/-- A payload whose `identifiers` object is missing `visitor_id`. -/
def dataBadIds : List (String × Json) :=
  [(("event_type"), .str ("click")),
   (("sent_at"), .str ("2024-01-01T12:00:00Z")),
   (("identifiers"), .obj []),
   (("page_info"), .obj [(("url"), .str ("https://x.test"))])]

/-- Witness for C4: malformed `identifiers` yields the generic 500, an
unchanged store and a bumped `processing` counter. -/
theorem track_event_processing_witness :
    (track_event [evClick] cSample dataBadIds true 5 0 ctrs0).1.status = 500 ∧
    (track_event [evClick] cSample dataBadIds true 5 0 ctrs0).1.err
      = some ("Failed to process event") ∧
    (track_event [evClick] cSample dataBadIds true 5 0 ctrs0).2.1 = [evClick] ∧
    (track_event [evClick] cSample dataBadIds true 5 0 ctrs0).2.2.processing
      = ctrs0.processing + 1 :=
  track_event_processing [evClick] cSample dataBadIds true 5 0 ctrs0
    (by decide) (Or.inl (by rfl))

/-! Section: claim C10, `page_title` and `referrer` are never populated. -/

/-- Claim C10: every row the ingestion endpoint adds to the store has
`page_title` and `referrer` equal to `NULL`, whatever the payload. -/
theorem track_event_row_columns (store : List EventRow) (c : Client)
    (data : List (String × Json)) (persistOk : Bool) (nextId : Nat) (now : Int)
    (ctrs : Counters) (row : EventRow)
    (hrow : row ∈ (track_event store c data persistOk nextId now ctrs).2.1) :
    row ∈ store ∨ (row.page_title = none ∧ row.referrer = none) := by
  cases hm : firstMissing data with
  | some f =>
    simp [track_event, hm] at hrow
    exact Or.inl hrow
  | none =>
    cases hb : buildEvent data c nextId now with
    | none =>
      simp [track_event, hm, hb] at hrow
      exact Or.inl hrow
    | some r =>
      cases persistOk with
      | false =>
        simp [track_event, hm, hb] at hrow
        exact Or.inl hrow
      | true =>
        simp [track_event, hm, hb] at hrow
        rcases hrow with h | h
        · exact Or.inl h
        · subst h
          have hf := buildEvent_some data c nextId now row hb
          exact Or.inr ⟨hf.2.2.2.2.1, hf.2.2.2.2.2⟩

/-- A complete, well-formed payload. -/
def goodData : List (String × Json) :=
  [(("event_type"), .str ("click")),
   (("sent_at"), .str ("2024-01-01T12:00:00Z")),
   (("identifiers"), .obj [(("visitor_id"), .str ("v1")), (("session_id"), .str ("s1"))]),
   (("page_info"), .obj [(("url"), .str ("https://x.test"))])]

/-- The row ingestion of `goodData` persists. -/
def goodRow : EventRow :=
  { id := 5, client_id := 1, visitor_id := .str ("v1"), session_id := .str ("s1"),
    page_url := .str ("https://x.test"), page_title := none, referrer := none,
    event_type := .str ("click"), sdk_version := none,
    sent_at := instantSeconds ⟨⟨2024, 1, 1, 12, 0, 0⟩, some 0⟩, received_at := 0,
    raw_data := .obj goodData }

/-- Witness for C10: a concrete successful ingestion stores a row with
`NULL` `page_title` and `referrer`. -/
theorem track_event_row_columns_witness :
    goodRow ∈ (track_event [] cSample goodData true 5 0 ctrs0).2.1 ∧
    (goodRow ∈ ([] : List EventRow) ∨
      (goodRow.page_title = none ∧ goodRow.referrer = none)) := by
  have hmem : goodRow ∈ (track_event [] cSample goodData true 5 0 ctrs0).2.1 := by
    have hst : (track_event [] cSample goodData true 5 0 ctrs0).2.1 = [goodRow] := rfl
    rw [hst]
    exact List.mem_singleton_self goodRow
  exact ⟨hmem, track_event_row_columns [] cSample goodData true 5 0 ctrs0 goodRow hmem⟩

/-! Section: claim C8 (corrected), registration. -/

/-- Counterexample to C8 as stated: a registration whose `name` field is
the empty string is accepted with 201 and persists a Client row, instead
of failing validation. -/
theorem register_client_empty_name_cex :
    (register_client (some [(("name"), .str (""))]) ("tok") [] 1 0).1.status = 201 ∧
    (register_client (some [(("name"), .str (""))]) ("tok") [] 1 0).2
      = [⟨1, "sk_" ++ "tok", .str (""), 0, true⟩] :=
  ⟨rfl, rfl⟩

/-- Claim C8 as amended: registration fails with 400 and persists nothing
exactly when the body is absent/empty or lacks a `name` key; any body with
a `name` key — even an empty-string value — creates a Client with
`is_active = true` and returns the fresh `sk_`-prefixed key. -/
theorem register_client_spec (body : Option (List (String × Json))) (tok : String)
    (clients : List Client) (nextId : Nat) (now : Int) :
    ((body = none ∨
        ∃ data, body = some data ∧ (data.isEmpty ∨ (jlookup data ("name")).isNone)) →
      (register_client body tok clients nextId now).1.status = 400 ∧
      (register_client body tok clients nextId now).2 = clients) ∧
    (∀ data, body = some data → ¬data.isEmpty → (jlookup data ("name")).isSome →
      (register_client body tok clients nextId now).1.status = 201 ∧
      (register_client body tok clients nextId now).1.api_key = some ("sk_" ++ tok) ∧
      (register_client body tok clients nextId now).2
        = clients ++
          [{ id := nextId, api_key := ("sk_" ++ tok),
             name := (jlookup data ("name")).getD .null, created_at := now,
             is_active := true }]) := by
  constructor
  · rintro (rfl | ⟨data, rfl, hd⟩)
    · exact ⟨rfl, rfl⟩
    · rcases hd with hd | hd
      · constructor <;> simp [register_client, hd]
      · constructor <;> simp [register_client, hd]
  · rintro data rfl hne hsome
    have h1 : data.isEmpty = false := by
      cases h : data.isEmpty
      · rfl
      · exact absurd h hne
    have h2 : (jlookup data ("name")).isNone = false := by
      cases h : jlookup data ("name")
      · rw [h] at hsome; simp at hsome
      · rfl
    simp [register_client, h1, h2, generate_api_key]

/-- Witness for the amended C8 at a concrete registration. -/
theorem register_client_spec_witness :
    (register_client (some [(("name"), .str ("Acme"))]) ("tok") [] 1 0).1.status = 201 ∧
    (register_client (some [(("name"), .str ("Acme"))]) ("tok") [] 1 0).1.api_key
      = some ("sk_" ++ "tok") ∧
    (register_client (some [(("name"), .str ("Acme"))]) ("tok") [] 1 0).2
      = [] ++
        [{ id := 1, api_key := ("sk_" ++ "tok"),
           name := (jlookup [(("name"), .str ("Acme"))] ("name")).getD .null,
           created_at := 0, is_active := true }] :=
  (register_client_spec (some [(("name"), .str ("Acme"))]) ("tok") [] 1 0).2
    [(("name"), .str ("Acme"))] rfl (by simp) (by rfl)

/-! Section: claim C2, the auth gate. -/

/-- Claim C2: outside the allow-list, a request supplying no key (body
field absent or falsy, header absent or empty) gets 401 `Missing api_key`;
a truthy body field takes precedence over the header; a supplied key with
no exact active-client match gets 401 `Invalid API key`; a matching key
attaches the resolved client. -/
theorem authenticate_spec (path : String) (body : Option (List (String × Json)))
    (header : Option String) (clients : List Client) (ctrs : Counters)
    (hpath : path ∉ publicPaths) :
    ((jsonTruthy ((jlookup (body.getD []) ("api_key")).getD .null) = false →
      (header = none ∨ header = some "") →
      (authenticate path body header clients ctrs).1 = .denied 401 ("Missing api_key"))) ∧
    (jsonTruthy ((jlookup (body.getD []) ("api_key")).getD .null) = true →
      ∀ header', authenticate path body header' clients ctrs
        = authenticate path body header clients ctrs) ∧
    (∀ k : String, candidateKey body header = .str k → k ≠ "" →
      (∀ c ∈ clients, ¬(c.api_key = k ∧ c.is_active = true)) →
      (authenticate path body header clients ctrs).1 = .denied 401 ("Invalid API key")) ∧
    (∀ k : String, candidateKey body header = .str k → k ≠ "" →
      ∀ c, clients.find? (keyMatches (.str k)) = some c →
        (authenticate path body header clients ctrs).1 = .ok c ∧
        c.api_key = k ∧ c.is_active = true) := by
  refine ⟨?_, ?_, ?_, ?_⟩
  · intro h1 h2
    have hcand : jsonTruthy (candidateKey body header) = false := by
      unfold candidateKey
      rw [if_neg (by simp [h1])]
      rcases h2 with rfl | rfl
      · rfl
      · rfl
    simp [authenticate, hpath, hcand]
  · intro h1 header'
    have hck : ∀ hh : Option String, candidateKey body hh
        = (jlookup (body.getD []) ("api_key")).getD .null := by
      intro hh
      unfold candidateKey
      rw [if_pos (by simp [h1])]
    simp [authenticate, hpath, hck]
  · intro k hck hk hno
    have htr : jsonTruthy (Json.str k) = true := by
      simpa [jsonTruthy] using hk
    have hfind : clients.find? (keyMatches (.str k)) = none := by
      rw [List.find?_eq_none]
      intro c hc
      intro hkm
      unfold keyMatches at hkm
      simp only [Bool.and_eq_true, beq_iff_eq] at hkm
      exact hno c hc ⟨hkm.1.symm, hkm.2⟩
    simp [authenticate, hpath, hck, htr, hfind]
  · intro k hck hk c hfind
    have htr : jsonTruthy (Json.str k) = true := by
      simpa [jsonTruthy] using hk
    have hkm := List.find?_some hfind
    unfold keyMatches at hkm
    simp only [Bool.and_eq_true, beq_iff_eq] at hkm
    refine ⟨?_, hkm.1.symm, hkm.2⟩
    simp [authenticate, hpath, hck, htr, hfind]

/-- Witness for C2: a concrete request with no body and no header is
denied with `Missing api_key`, and one with a valid header key resolves
the client. -/
theorem authenticate_spec_witness :
    ((authenticate ("/api/events") none none [cSample] ctrs0).1
      = .denied 401 ("Missing api_key")) ∧
    ((authenticate ("/api/events") none (some ("sk_k1")) [cSample] ctrs0).1
      = .ok cSample) := by
  constructor
  · exact (authenticate_spec ("/api/events") none none [cSample] ctrs0
      (by simp [publicPaths])).1 rfl (Or.inl rfl)
  · exact ((authenticate_spec ("/api/events") none (some ("sk_k1")) [cSample] ctrs0
      (by simp [publicPaths])).2.2.2 ("sk_k1") rfl (by simp) cSample (by rfl)).1

/-! Section: claim C1, the recent-events feed. -/

/-- Claim C1: the recent feed returns at most 50 events, all owned by the
authenticated tenant, ordered by `sent_at` descending, and they dominate
(by `sent_at`) every tenant event not shown: the most recent 50. -/
theorem recent_events_spec (store : List EventRow) (cid : Nat) (vs : List EventView)
    (h : recent_events store cid = some vs) :
    vs.length ≤ 50 ∧
    ∃ sel rest : List EventRow,
      List.Forall₂ (fun e v => eventView e = some v) sel vs ∧
      (∀ e ∈ sel, e.client_id = cid) ∧
      List.Sorted sentGe sel ∧
      (sel ++ rest).Perm (tenantEvents store cid) ∧
      (∀ e ∈ sel, ∀ e' ∈ rest, e'.sent_at ≤ e.sent_at) := by
  unfold recent_events at h
  have hf₂ := mapM_option_forall₂ eventView
    (((tenantEvents store cid).insertionSort sentGe).take 50) vs h
  have hlen : vs.length ≤ 50 := by
    rw [← hf₂.length_eq]
    exact List.length_take_le 50 _
  refine ⟨hlen, ((tenantEvents store cid).insertionSort sentGe).take 50,
    ((tenantEvents store cid).insertionSort sentGe).drop 50, hf₂, ?_, ?_, ?_, ?_⟩
  · intro e he
    have hmem : e ∈ (tenantEvents store cid).insertionSort sentGe :=
      List.take_subset 50 _ he
    have hmem' : e ∈ tenantEvents store cid :=
      (List.perm_insertionSort sentGe _).mem_iff.mp hmem
    unfold tenantEvents at hmem'
    exact of_decide_eq_true (List.mem_filter.mp hmem').2
  · exact List.Pairwise.sublist (List.take_sublist 50 _)
      (List.sorted_insertionSort sentGe (tenantEvents store cid))
  · rw [List.take_append_drop]
    exact List.perm_insertionSort sentGe _
  · intro e he e' he'
    have hs := List.sorted_insertionSort sentGe (tenantEvents store cid)
    rw [← List.take_append_drop 50 ((tenantEvents store cid).insertionSort sentGe)] at hs
    exact (List.pairwise_append.mp hs).2.2 e he e' he'

/-- The view the recent feed renders for `evClick`. -/
def viewClick : EventView :=
  ⟨10, .str ("click"), .str ("v1"), .str ("https://x.test"), 100, .null, .null, .null⟩

/-- Witness for C1 at a concrete one-event store. -/
theorem recent_events_spec_witness :
    recent_events [evClick] 1 = some [viewClick] ∧
    ([viewClick].length ≤ 50 ∧
      ∃ sel rest : List EventRow,
        List.Forall₂ (fun e v => eventView e = some v) sel [viewClick] ∧
        (∀ e ∈ sel, e.client_id = 1) ∧
        List.Sorted sentGe sel ∧
        (sel ++ rest).Perm (tenantEvents [evClick] 1) ∧
        (∀ e ∈ sel, ∀ e' ∈ rest, e'.sent_at ≤ e.sent_at)) :=
  ⟨rfl, recent_events_spec [evClick] 1 [viewClick] rfl⟩

/-! Section: claim C6, error analytics. -/

/-- The frequency key as the spec words it: the `raw_data.error_info.message`
field, with a missing message (or missing `error_info`) counted under the
literal key `"Unknown"`. -/
def specErrorKey (e : EventRow) : Option Json :=
  match e.raw_data with
  | .obj fs =>
    match jlookup fs ("error_info") with
    | none => some (.str ("Unknown"))
    | some (.obj gs) => some ((jlookup gs ("message")).getD (.str ("Unknown")))
    | some _ => none
  | _ => none

/-- The code's chained `.get` defaults compute exactly the spec's key. -/
theorem errorFreqKey_eq_spec (e : EventRow) : errorFreqKey e = specErrorKey e := by
  unfold errorFreqKey specErrorKey
  cases hr : e.raw_data <;> simp [pyGetD]
  case obj fs =>
    cases hl : jlookup fs ("error_info") with
    | none => simp [pyGetD, jlookup]
    | some v => cases v <;> simp [pyGetD]

/-- `pyEq` against the string literal `'error'` is exact equality with the
string value. -/
theorem pyEq_str_error (x : Json) (h : pyEq x (.str ("error")) = true) :
    x = .str ("error") := by
  cases x <;> simp [pyEq] at h ⊢
  exact h

/-- Claim C6: error analytics selects the up-to-100 most recent `error`
events by `sent_at` descending; the frequency table is keyed over all
selected events by `raw_data.error_info.message` with missing messages
under `"Unknown"`; the listing shows only the first 10; and a tenant with
no error events gets `{total_errors: 0, recent_errors: [], error_frequency: {}}`. -/
theorem error_analytics_spec (store : List EventRow) (cid : Nat) :
    (tenantErrorEvents store cid = [] →
      error_analytics store cid = some ⟨0, [], []⟩) ∧
    (∀ r, error_analytics store cid = some r →
      ∃ sel rest : List EventRow,
        r.total_errors = sel.length ∧
        sel.length ≤ 100 ∧
        (∀ e ∈ sel, e.client_id = cid ∧ e.event_type = .str ("error")) ∧
        List.Sorted sentGe sel ∧
        (sel ++ rest).Perm (tenantErrorEvents store cid) ∧
        (∀ e ∈ sel, ∀ e' ∈ rest, e'.sent_at ≤ e.sent_at) ∧
        List.Forall₂ (fun e v => errorView e = some v) (sel.take 10) r.recent_errors ∧
        sel.foldlM (fun m e => (specErrorKey e).bind (dictBump m)) []
          = some r.error_frequency) := by
  constructor
  · intro hempty
    unfold error_analytics
    rw [hempty]
    rfl
  · intro r h
    unfold error_analytics at h
    simp only [bind, Option.bind_eq_some, pure, Option.some.injEq] at h
    obtain ⟨freq, hfreq, views, hviews, hr⟩ := h
    subst hr
    refine ⟨((tenantErrorEvents store cid).insertionSort sentGe).take 100,
      ((tenantErrorEvents store cid).insertionSort sentGe).drop 100,
      rfl, List.length_take_le 100 _, ?_, ?_, ?_, ?_, ?_, ?_⟩
    · intro e he
      have hmem : e ∈ tenantErrorEvents store cid :=
        (List.perm_insertionSort sentGe _).mem_iff.mp (List.take_subset 100 _ he)
      unfold tenantErrorEvents at hmem
      have hp := (List.mem_filter.mp hmem).2
      simp only [Bool.and_eq_true, decide_eq_true_eq] at hp
      exact ⟨hp.1, pyEq_str_error _ hp.2⟩
    · exact List.Pairwise.sublist (List.take_sublist 100 _)
        (List.sorted_insertionSort sentGe (tenantErrorEvents store cid))
    · rw [List.take_append_drop]
      exact List.perm_insertionSort sentGe _
    · intro e he e' he'
      have hs := List.sorted_insertionSort sentGe (tenantErrorEvents store cid)
      rw [← List.take_append_drop 100
        ((tenantErrorEvents store cid).insertionSort sentGe)] at hs
      exact (List.pairwise_append.mp hs).2.2 e he e' he'
    · exact mapM_option_forall₂ errorView _ views hviews
    · rw [show specErrorKey = errorFreqKey from
        (funext fun e => (errorFreqKey_eq_spec e).symm)]
      exact hfreq

/-- The report error analytics produces for the one-error store `[evErr]`. -/
def reportErr : ErrorReport :=
  ⟨1, [⟨.str ("boom"), .null, .null, .str ("https://x.test/2"), 200⟩],
   [(.str ("boom"), 1)]⟩

/-- Witness for C6: the zero-error scenario at an empty store, and the
selection/frequency properties at a one-error store. -/
theorem error_analytics_spec_witness :
    error_analytics ([] : List EventRow) 1 = some ⟨0, [], []⟩ ∧
    error_analytics [evErr] 1 = some reportErr ∧
    (∃ sel rest : List EventRow,
      reportErr.total_errors = sel.length ∧
      sel.length ≤ 100 ∧
      (∀ e ∈ sel, e.client_id = 1 ∧ e.event_type = .str ("error")) ∧
      List.Sorted sentGe sel ∧
      (sel ++ rest).Perm (tenantErrorEvents [evErr] 1) ∧
      (∀ e ∈ sel, ∀ e' ∈ rest, e'.sent_at ≤ e.sent_at) ∧
      List.Forall₂ (fun e v => errorView e = some v) (sel.take 10)
        reportErr.recent_errors ∧
      sel.foldlM (fun m e => (specErrorKey e).bind (dictBump m)) []
        = some reportErr.error_frequency) :=
  ⟨(error_analytics_spec ([] : List EventRow) 1).1 rfl, rfl,
   (error_analytics_spec [evErr] 1).2 reportErr rfl⟩

/-! Section: claim C7, `Z`-suffixed timestamp normalization. -/

/-- The spec-side reading of a `Z`-suffixed ISO-8601 timestamp: the naive
part interpreted at UTC offset 0 (what the trailing `Z` denotes). -/
def parseZuluSpec (s : String) : Option AwareDT :=
  if s.data.drop 19 = ['Z'] then
    (parseNaive19 (s.data.take 19)).map (fun n => ⟨n, some 0⟩)
  else none

/-- A valid `Z`-suffixed ISO-8601 timestamp (in the restricted grammar). -/
def isValidZulu (s : String) : Prop := (parseZuluSpec s).isSome

/-- A parsed naive part has exactly 19 characters. -/
theorem parseNaive19_length (cs : List Char) (n : NaiveDT)
    (h : parseNaive19 cs = some n) : cs.length = 19 := by
  simp only [parseNaive19] at h
  split_ifs at h with hc
  exact hc.1

/-- A digit character is not `'Z'`. -/
theorem char_digit_ne_cap (c : Char) (h : c.isDigit = true) : c ≠ 'Z' := by
  intro he
  subst he
  exact absurd h (by decide)

/-- No character of a parsed naive part is `'Z'` (they are digits, `'-'`,
`':'` and `'T'`), so Python's replace-all of `'Z'` touches only the
suffix. -/
theorem parseNaive19_no_cap (cs : List Char) (n : NaiveDT)
    (h : parseNaive19 cs = some n) : ∀ ch ∈ cs, ch ≠ 'Z' := by
  have hlen := parseNaive19_length cs n h
  simp only [parseNaive19] at h
  split_ifs at h with hc
  obtain ⟨-, h0, h1, h2, h3, h4, h5, h6, h7, h8, h9, h10, h11, h12, h13, h14, h15,
    h16, h17, h18, -⟩ := hc
  intro ch hmem
  obtain ⟨⟨j, hj⟩, hget⟩ := List.mem_iff_get.mp hmem
  have hgd : cs.getD j ' ' = ch := by
    rw [List.getD_eq_getElem cs ' ' hj]
    exact hget
  have hj19 : j < 19 := hlen ▸ hj
  interval_cases j <;> rw [← hgd] <;> simp_all [char_digit_ne_cap]

/-- Replacing a character that does not occur leaves the list unchanged. -/
theorem flatMap_replace_of_no_occurrence (pat : Char) (rep : List Char) :
    ∀ l : List Char, (∀ ch ∈ l, ch ≠ pat) →
      l.flatMap (fun ch => if ch = pat then rep else [ch]) = l := by
  intro l
  induction l with
  | nil => intro _; rfl
  | cons a rest ih =>
    intro hno
    rw [List.flatMap_cons, if_neg (hno a (List.mem_cons_self a rest)),
      ih (fun ch hm => hno ch (List.mem_cons_of_mem a hm))]
    rfl

/-- Claim C7: for a valid `Z`-suffixed ISO-8601 `sent_at`, the value the
ingestion path stores (`fromisoformat` after the `'Z' -> '+00:00'`
rewrite, i.e. `parseSentAt`) is exactly the UTC instant the suffix
denotes: the naive part at offset 0. -/
theorem sent_at_zulu_normalization (s : String) (h : isValidZulu s) :
    parseSentAt (.str s) = parseZuluSpec s ∧
    ∃ n, parseZuluSpec s = some ⟨n, some 0⟩ := by
  unfold isValidZulu at h
  unfold parseZuluSpec at h ⊢
  by_cases hz : s.data.drop 19 = ['Z']
  · rw [if_pos hz] at h ⊢
    cases hn : parseNaive19 (s.data.take 19) with
    | none => rw [hn] at h; simp at h
    | some n =>
      refine ⟨?_, n, rfl⟩
      have hlen19 : (s.data.take 19).length = 19 := parseNaive19_length _ _ hn
      have hnoZ := parseNaive19_no_cap _ _ hn
      have hdecomp : s.data = s.data.take 19 ++ ['Z'] := by
        conv_lhs => rw [← List.take_append_drop 19 s.data]
        rw [hz]
      have hrep : (pyReplace s 'Z' ("+00:00")).data
          = s.data.take 19 ++ ("+00:00").data := by
        have hdata : (pyReplace s 'Z' ("+00:00")).data
            = s.data.flatMap (fun ch => if ch = 'Z' then ("+00:00").data else [ch]) := rfl
        rw [hdata]
        conv_lhs => rw [hdecomp]
        rw [List.flatMap_append,
          flatMap_replace_of_no_occurrence 'Z' (("+00:00").data) _ hnoZ]
        simp
      have ht : (s.data.take 19 ++ ("+00:00").data).take 19 = s.data.take 19 := by
        have hx := List.take_left (s.data.take 19) (("+00:00").data)
        rwa [hlen19] at hx
      have hd : (s.data.take 19 ++ ("+00:00").data).drop 19 = ("+00:00").data := by
        have hx := List.drop_left (s.data.take 19) (("+00:00").data)
        rwa [hlen19] at hx
      show fromisoformat (pyReplace s 'Z' ("+00:00")) = _
      unfold fromisoformat
      rw [hrep, ht, hd, hn]
      rfl
  · rw [if_neg hz] at h
    simp at h

/-- Witness for C7 at the concrete timestamp `2024-01-01T12:00:00Z`. -/
theorem sent_at_zulu_normalization_witness :
    isValidZulu ("2024-01-01T12:00:00Z") ∧
    (parseSentAt (.str ("2024-01-01T12:00:00Z"))
        = parseZuluSpec ("2024-01-01T12:00:00Z") ∧
      ∃ n, parseZuluSpec ("2024-01-01T12:00:00Z") = some ⟨n, some 0⟩) := by
  have h : isValidZulu ("2024-01-01T12:00:00Z") := by
    unfold isValidZulu
    decide
  exact ⟨h, sent_at_zulu_normalization ("2024-01-01T12:00:00Z") h⟩
